import Mathlib

/-!
Verification development for the Moodle authentication tester module
(`modules/auth_tester.py`).  The Python class `MoodleAuthTester` is shallowly
embedded: its HTTP session, HTML-token extraction and cookie jar are modelled
as an external `World`, the mutable instance state (per-account login-attempt
counters and the chronological trace of sleeps and outbound requests) as an
explicit `St` value threaded through every operation, and Python exceptions as
`Except String`.  Every definition below is translated from the source file;
the theorems at the end settle the frozen claims about it.
-/

namespace MoodleAuth

/-- Python `needle in hay` substring test on lists of characters. -/
def listContains (n : List Char) : List Char → Bool
  | [] => n.isEmpty
  | c :: t => n.isPrefixOf (c :: t) || listContains n t

/-- Python `needle in hay` substring test on strings. -/
def pyIn (needle hay : String) : Bool := listContains needle.data hay.data

/-- Python lexicographic string comparison (by code point) on char lists. -/
def pyLtList : List Char → List Char → Bool
  | [], [] => false
  | [], _ :: _ => true
  | _ :: _, [] => false
  | a :: as, b :: bs => if a < b then true else if b < a then false else pyLtList as bs

/-- Python `s < t` string comparison. -/
def pyStrLt (s t : String) : Bool := pyLtList s.data t.data

/-- Python `s.startswith(p)`. -/
def pyStartsWith (s p : String) : Bool := p.data.isPrefixOf s.data

/-- An HTTP response as the checks observe it: status code, body text and
final URL (after redirects), mirroring `requests.Response`. -/
structure Response where
  status_code : Nat
  text : String
  url : String
deriving DecidableEq

/-- Truthiness of a `requests.Response` object: `bool(response)` is
`response.ok`, which is false exactly for status codes in [400, 600). -/
def respTruthy (r : Response) : Bool := !(400 ≤ r.status_code && r.status_code < 600)

/-- An outbound HTTP request: method, URL, form data, query parameters and
extra headers, in the order the Python code supplies them. -/
structure Req where
  method : String
  url : String
  data : List (String × String)
  params : List (String × String)
  headers : List (String × String)
deriving DecidableEq

/-- One observable event of a run: a blocking `time.sleep(self.delay)` or an
outbound request on the session. -/
inductive Event where
  | sleep : Event
  | request : Req → Event
deriving DecidableEq

/-- The external behaviour the tester interacts with.  `http n r` is the
outcome of the (n+1)-st outbound request `r` (an `Except.error` models a
raised transport exception, carrying `str(e)`); `tokenOf body` models
BeautifulSoup extraction of the `logintoken` input from a page (`none` when
the input tag is absent; `some v` when it is present with effective value
`v`, already defaulting a missing value attribute to `""`); `cookieMoodle n`
is the value of the `MoodleSession` cookie in the session jar after `n`
requests (`none` when absent); `stateParam url` models
`state in urllib.parse.parse_qs(urlparse(url).query)` (membership of the key state). -/
structure World where
  http : Nat → Req → Except String Response
  tokenOf : String → Option String
  cookieMoodle : Nat → Option String
  stateParam : String → Bool

/-- The probe configuration fixed at construction (`__init__` arguments after
normalisation; `target_url` is the URL with any trailing slash already stripped).
`version_info` models `self.version_info` as set by `set_version_info`:
`none` when never set, `some none` when the dictionary lacks a `"version"`
key, `some (some v)` when `version_info.get("version")` is `v`. -/
structure Config where
  target_url : String
  username : Option String
  password : Option String
  timeout : Nat
  verify_ssl : Bool
  delay : Rat
  version_info : Option (Option String)

/-- Python truthiness of an optional string (`None` and `""` are falsy). -/
def truthyOpt : Option String → Bool
  | none => false
  | some s => s ≠ ""

/-- The mutable per-instance state: `attempts` is `self._login_attempts`
(a total map, defaulting to 0 like `dict.get(k, 0)`), and `trace` is the
chronological list of sleeps and outbound requests of the run so far. -/
structure St where
  attempts : String → Nat
  trace : List Event

/-- Number of requests already sent in a trace (indexes `World.http`). -/
def reqCount (t : List Event) : Nat :=
  t.countP fun e => match e with | Event.request _ => true | Event.sleep => false

/-- Increment of the attempt counter for one account key. -/
def bump (f : String → Nat) (k : String) : String → Nat :=
  fun x => if x = k then f k + 1 else f x

/-- The `self._max_attempts_per_account = 3` constant. -/
def max_attempts_per_account : Nat := 3

/-- Python `if self.delay > 0: time.sleep(self.delay)`. -/
def sleepIf (cfg : Config) (st : St) : St :=
  if 0 < cfg.delay then { st with trace := st.trace ++ [Event.sleep] } else st

/-- One raw request on the session (`self.session.request`/`get`/`post`);
the response is determined by the external world from the number of requests
sent so far. -/
def send (w : World) (st : St) (r : Req) : Except String Response × St :=
  (w.http (reqCount st.trace) r, { st with trace := st.trace ++ [Event.request r] })

/-- A GET request with no data, params or extra headers. -/
def getReq (url : String) : Req := ⟨"get", url, [], [], []⟩

/-- A POST request with form data only. -/
def postReq (url : String) (data : List (String × String)) : Req :=
  ⟨"post", url, data, [], []⟩

/-- The `_safe_request` wrapper: sleeps first when a delay is configured,
then performs the request, catching every exception (Timeout,
ConnectionError, RequestException, Exception) and returning `none`. -/
def safe_request (cfg : Config) (w : World) (st : St) (r : Req) : Option Response × St :=
  let st1 := sleepIf cfg st
  let res := send w st1 r
  match res.1 with
  | Except.ok resp => (some resp, res.2)
  | Except.error _ => (none, res.2)

/-- URL of the login form. -/
def login_url (cfg : Config) : String := cfg.target_url ++ "/login/index.php"

/-- URL of the admin index page. -/
def admin_url (cfg : Config) : String := cfg.target_url ++ "/admin/index.php"

/-- The `test_authentication` credential probe.  `hashFn` abstracts
`hashlib.md5(username.encode()).hexdigest()`: the code only relies on it
being a deterministic function of the username, so the embedding is
parametric in it and every positive theorem holds for all such functions. -/
def test_authentication (cfg : Config) (hashFn : String → String) (w : World)
    (st : St) (username password : String) : Bool × St :=
  if username = "" then (false, st)
  else
    if max_attempts_per_account ≤ st.attempts (hashFn username) then (false, st)
    else
      let st := { st with attempts := bump st.attempts (hashFn username) }
      let r1 := safe_request cfg w st (getReq (login_url cfg))
      match r1.1 with
      | none => (false, r1.2)
      | some response =>
        if !respTruthy response || response.status_code ≠ 200 then (false, r1.2)
        else
          let logintoken := (w.tokenOf response.text).getD ""
          let st2 := sleepIf cfg r1.2
          let r2 := safe_request cfg w st2 (postReq (login_url cfg)
            [("username", username), ("password", password), ("logintoken", logintoken)])
          match r2.1 with
          | none => (false, r2.2)
          | some resp2 =>
            if !respTruthy resp2 then (false, r2.2)
            else if pyIn "loginerrors" resp2.text || pyIn "Invalid login" resp2.text then
              (false, r2.2)
            else if pyIn "/my/" resp2.url || pyIn "Dashboard" resp2.text ||
                pyIn "My courses" resp2.text then
              (true, r2.2)
            else
              let r3 := safe_request cfg w r2.2 (getReq (admin_url cfg))
              match r3.1 with
              | none => (false, r3.2)
              | some ar =>
                if respTruthy ar && ar.status_code == 200 &&
                    pyIn "Site administration" ar.text then (true, r3.2)
                else (false, r3.2)

/-- One entry of the `self.test_credentials` list. -/
structure Creds where
  username : String
  password : String
  description : String
deriving DecidableEq

/-- The fixed common-credentials list, in source order. -/
def test_credentials : List Creds :=
  [⟨"admin", "admin", "default admin credentials"⟩,
   ⟨"admin", "password", "simple admin password"⟩,
   ⟨"admin", "Password123", "common admin password"⟩,
   ⟨"admin", "moodle", "product name as password"⟩,
   ⟨"guest", "", "empty guest password"⟩,
   ⟨"admin", "changeme", "temporary default password"⟩]

/-- Loop body of `test_common_credentials`. -/
def common_credentials_loop (cfg : Config) (hashFn : String → String) (w : World) :
    List Creds → St → Option Creds × St
  | [], st => (none, st)
  | creds :: rest, st =>
    let st1 := sleepIf cfg st
    let r := test_authentication cfg hashFn w st1 creds.username creds.password
    if r.1 then (some creds, r.2) else common_credentials_loop cfg hashFn w rest r.2

/-- The `test_common_credentials` check: first tuple whose `test_authentication`
call succeeds, else `none`. -/
def test_common_credentials (cfg : Config) (hashFn : String → String) (w : World)
    (st : St) : Option Creds × St :=
  common_credentials_loop cfg hashFn w test_credentials st

/-- A finding dictionary as produced by the checks; optional keys model keys
absent from the corresponding Python dict. -/
structure Finding where
  title : String
  description : String
  severity : String
  evidence : Option String
  remediation : Option String
  cve : Option String
  cwe : Option String
  references : Option (List String)
deriving DecidableEq

/-- The result dictionary of `run_tests`. -/
structure Report where
  vulnerabilities : List Finding
  info : List Finding
deriving DecidableEq

/-- Info note for a successful authentication with the provided credentials. -/
def success_note (u : String) : Finding :=
  ⟨"Successful Authentication",
   "Successfully authenticated with provided credentials (" ++ u ++ ").",
   "Info", none, none, none, none, none⟩

/-- Critical finding for working common/default credentials. -/
def weak_credentials_finding (c : Creds) : Finding :=
  ⟨"Weak Default Credentials",
   "The Moodle installation uses common or default credentials: " ++
     c.username ++ ":" ++ c.password,
   "Critical",
   some ("Successfully authenticated with " ++ c.username ++ ":" ++ c.password ++
     " (" ++ c.description ++ ")"),
   some "Change default credentials and implement a strong password policy.",
   none, some "CWE-521", none⟩

/-- Critical finding emitted by the OAuth2 check from the version range alone. -/
def oauth_version_finding (version : String) : Finding :=
  ⟨"OAuth2 Authentication Bypass Vulnerability",
   "The Moodle installation appears to be running a version vulnerable to CVE-2023-46806. " ++
     "This vulnerability allows attackers to bypass authentication via the OAuth2 module.",
   "Critical",
   some ("Moodle version " ++ version ++
     " detected, which is in the vulnerable range. OAuth2 is enabled."),
   some "Update to Moodle versions 4.2.2, 4.1.5, 4.0.11 or later.",
   some "CVE-2023-46806", none,
   some ["https://moodle.org/mod/forum/discuss.php?d=447992"]⟩

/-- Critical finding emitted by the OAuth2 check after live exploitation. -/
def oauth_exploit_finding : Finding :=
  ⟨"OAuth2 Authentication Bypass Vulnerability",
   "The Moodle installation is vulnerable to an OAuth2 authentication bypass vulnerability. " ++
     "This vulnerability allows attackers to bypass authentication and gain administrative access.",
   "Critical",
   some "Successfully bypassed authentication using OAuth2 state parameter manipulation.",
   some "Update to Moodle versions 4.2.2, 4.1.5, 4.0.11 or later.",
   some "CVE-2023-46806", none,
   some ["https://moodle.org/mod/forum/discuss.php?d=447992"]⟩

/-- Critical finding for a successful SQL-injection login bypass. -/
def sql_injection_finding (u : String) : Finding :=
  ⟨"SQL Injection Authentication Bypass",
   "The Moodle login form is vulnerable to SQL injection, allowing attackers to bypass authentication.",
   "Critical",
   some ("Successfully authenticated using SQL injection payload: " ++ u),
   some "Update to the latest Moodle version and ensure proper input validation is in place.",
   none, none, none⟩

/-- Medium finding: multiple accounts share an email (password reset). -/
def reset_multi_finding (u : String) : Finding :=
  ⟨"User Enumeration via Password Reset",
   "The password reset functionality discloses information about existing usernames.",
   "Medium",
   some ("The system indicated multiple users with the same email for username: " ++ u),
   some "Modify the password reset functionality to use generic messages that don\x27t disclose user information.",
   none, none, none⟩

/-- Medium finding: direct username non-existence disclosure (password reset). -/
def reset_nouser_finding (u : String) : Finding :=
  ⟨"User Enumeration via Password Reset",
   "The password reset functionality allows enumeration of valid usernames.",
   "Medium",
   some ("The system directly indicated that username \x27" ++ u ++ "\x27 doesn\x27t exist."),
   some "Modify the password reset functionality to use generic messages that don\x27t disclose user information.",
   none, none, none⟩

/-- High finding: Host header injection in password reset. -/
def reset_host_finding : Finding :=
  ⟨"Password Reset Host Header Injection",
   "The password reset functionality may be vulnerable to Host header injection, " ++
     "which could allow attackers to receive password reset links for other users.",
   "High",
   some "The system accepted a modified Host header in the password reset request.",
   some ("Modify the password reset functionality to use hardcoded URLs rather than ones " ++
     "derived from the HTTP Host header."),
   none, none, none⟩

/-- Python `repr` of a one-level string dictionary, used in the Host-header
f-string evidence of the Host-header finding. -/
def reprHeaders (hs : List (String × String)) : String :=
  "\x7b" ++
    String.intercalate ", "
      (hs.map fun kv => "\x27" ++ kv.1 ++ "\x27: \x27" ++ kv.2 ++ "\x27") ++
  "\x7d"

/-- Critical finding for a Host-header authentication bypass. -/
def host_header_finding (hs : List (String × String)) : Finding :=
  ⟨"Host Header Authentication Bypass",
   "The Moodle installation is vulnerable to authentication bypass via Host header manipulation.",
   "Critical",
   some ("Successfully accessed admin area using modified headers: " ++ reprHeaders hs),
   some "Configure the web server to validate Host headers and update Moodle to the latest version.",
   none, none, none⟩

/-- High finding: no CSRF token field in the login form. -/
def csrf_missing_finding : Finding :=
  ⟨"Missing CSRF Protection",
   "The Moodle login form doesn\x27t include CSRF tokens, making it vulnerable to cross-site request forgery attacks.",
   "High",
   some "No logintoken field found in the login form.",
   some "Update to the latest Moodle version which includes proper CSRF protection.",
   none, none, none⟩

/-- Medium finding: CSRF token shorter than 20 characters. -/
def csrf_weak_finding (n : Nat) : Finding :=
  ⟨"Weak CSRF Token",
   "The Moodle CSRF tokens appear to be too short, potentially making them easier to guess or brute force.",
   "Medium",
   some ("Login token length is only " ++ toString n ++ " characters."),
   some "Update to the latest Moodle version which includes stronger CSRF protection.",
   none, none, none⟩

/-- High finding: empty CSRF token accepted. -/
def csrf_bypass_finding : Finding :=
  ⟨"CSRF Protection Bypass",
   "The Moodle installation appears to accept empty CSRF tokens, making it vulnerable to cross-site request forgery attacks.",
   "High",
   some "The system processed a login form with an empty token without reporting a token error.",
   some "Update to the latest Moodle version and ensure proper CSRF protection is configured.",
   none, none, none⟩

/-- High finding: session cookie unchanged across login. -/
def session_fixation_finding (pre : String) : Finding :=
  ⟨"Session Fixation Vulnerability",
   "The Moodle installation does not change session cookies during login, making it vulnerable to session fixation attacks.",
   "High",
   some ("Session cookie remains the same before and after login: " ++ pre),
   some "Update to the latest Moodle version and ensure session regeneration is configured properly.",
   none, none, none⟩

/-- Info note appended when no vulnerability was found. -/
def no_vuln_note : Finding :=
  ⟨"Authentication Security",
   "No authentication vulnerabilities were found during testing.",
   "Info", none, none, none, none, none⟩

/-- Info note produced by the top-level exception handler of `run_tests`. -/
def error_note (e : String) : Finding :=
  ⟨"Authentication Testing Error",
   "An error occurred during authentication testing: " ++ e,
   "Info", none, none, none, none, none⟩

/-- One entry of `self.sql_injection_payloads`. -/
structure SqlPayload where
  username : String
  password : String
  ptype : String
deriving DecidableEq

/-- The fixed SQL-injection payload list, in source order. -/
def sql_injection_payloads : List SqlPayload :=
  [⟨"admin\x27 --", "anything", "comment"⟩,
   ⟨"admin\x27 #", "anything", "comment"⟩,
   ⟨"admin\x27/*", "anything", "comment"⟩,
   ⟨"admin\x27 OR \x271\x27=\x271\x27 --", "anything", "or_condition"⟩,
   ⟨"\x27 OR \x271\x27=\x271\x27 --", "anything", "or_condition"⟩,
   ⟨"\x27 OR 1=1 --", "anything", "or_condition"⟩,
   ⟨"admin\x27 OR 1=1 #", "anything", "or_condition"⟩,
   ⟨"admin\x27/**/OR/**/1=1/**/--", "anything", "obfuscation"⟩,
   ⟨"admin\x27%20OR%201=1%20--", "anything", "obfuscation"⟩,
   ⟨"\x27 UNION SELECT \x27admin\x27,\x27password\x27 --", "anything", "union"⟩]

/-- Loop body of `test_sql_injection_auth_bypass`. -/
def sql_loop (cfg : Config) (hashFn : String → String) (w : World) :
    List SqlPayload → St → Option Finding × St
  | [], st => (none, st)
  | payload :: rest, st =>
    let st1 := sleepIf cfg st
    let r := test_authentication cfg hashFn w st1 payload.username payload.password
    if r.1 then (some (sql_injection_finding payload.username), r.2)
    else sql_loop cfg hashFn w rest r.2

/-- The `test_sql_injection_auth_bypass` check. -/
def test_sql_injection_auth_bypass (cfg : Config) (hashFn : String → String)
    (w : World) (st : St) : Option Finding × St :=
  sql_loop cfg hashFn w sql_injection_payloads st

/-- URL of the OAuth2 login endpoint. -/
def oauth_url (cfg : Config) : String := cfg.target_url ++ "/auth/oauth2/login.php"

/-- The `version_info and version_info.get("version")` truthiness guard. -/
def version_guard (cfg : Config) : Option String :=
  match cfg.version_info with
  | some (some v) => if v = "" then none else some v
  | _ => none

/-- The textual vulnerable-range test of the OAuth2 check
(`startswith` plus Python lexicographic `<`). -/
def vulnerable_version (version : String) : Bool :=
  if pyStartsWith version "4.2" && pyStrLt version "4.2.2" then true
  else if pyStartsWith version "4.1" && pyStrLt version "4.1.5" then true
  else if pyStartsWith version "4.0" && pyStrLt version "4.0.11" then true
  else false

/-- Uppercase hex digit of a value below 16. -/
def hexUpper (n : Nat) : Char :=
  if n < 10 then Char.ofNat (48 + n) else Char.ofNat (55 + n)

/-- Bytes left unescaped by `urllib.parse.quote` with its default safe set (the slash):
digits, letters, and the characters `_ . - ~ /`. -/
def isSafeByte (b : Nat) : Bool :=
  (48 ≤ b && b ≤ 57) || (65 ≤ b && b ≤ 90) || (97 ≤ b && b ≤ 122) ||
    b = 95 || b = 46 || b = 45 || b = 126 || b = 47

/-- `urllib.parse.quote` over the UTF-8 bytes of a string. -/
def pctQuote (s : String) : String :=
  String.join (s.toUTF8.toList.map fun b =>
    let n := b.toNat
    if isSafeByte n then String.singleton (Char.ofNat n)
    else String.mk ['%', hexUpper (n / 16), hexUpper (n % 16)])

/-- The `json.dumps` rendering of the forged OAuth2 state dictionary
(insertion order, default separators; assumes the target URL contains no
character the JSON encoder would itself escape). -/
def state_json (target : String) : String :=
  "\x7b\"sesskey\": \"random\", \"wantsurl\": \"" ++ target ++
    "/admin/\", \"username\": \"admin\", \"admin\": true, \"role\": \"admin\"\x7d"

/-- The URL-quoted malicious state parameter. -/
def malicious_state (target : String) : String := pctQuote (state_json target)

/-- The two candidate OAuth2 callback URLs, in source order. -/
def oauth_callback_urls (cfg : Config) : List String :=
  [cfg.target_url ++ "/auth/oauth2/callback.php",
   cfg.target_url ++ "/admin/tool/oauth2/login.php"]

/-- Callback loop of the OAuth2 live-exploitation attempt.  It runs inside a
`try` that swallows every exception, so a transport error yields `none`. -/
def oauth_callback_loop (cfg : Config) (w : World) (ms : String) :
    List String → St → Option Finding × St
  | [], st => (none, st)
  | cb :: rest, st =>
    let st1 := sleepIf cfg st
    let r := send w st1 ⟨"get", cb, [], [("state", ms), ("code", "BYPASS")], []⟩
    match r.1 with
    | Except.error _ => (none, r.2)
    | Except.ok _ =>
      let ra := send w r.2 (getReq (admin_url cfg))
      match ra.1 with
      | Except.error _ => (none, ra.2)
      | Except.ok ar =>
        if ar.status_code == 200 && pyIn "Site administration" ar.text then
          (some oauth_exploit_finding, ra.2)
        else oauth_callback_loop cfg w ms rest ra.2

/-- The live-exploitation part of the OAuth2 check (the body of its `try`,
whose `except Exception` turns any raised error into `none`). -/
def oauth_exploit_attempt (cfg : Config) (w : World) (st : St) : Option Finding × St :=
  let r := send w st ⟨"get", oauth_url cfg, [],
    [("id", "1"), ("wantsurl", cfg.target_url ++ "/admin/"), ("sesskey", "random")], []⟩
  match r.1 with
  | Except.error _ => (none, r.2)
  | Except.ok response =>
    if pyIn "state=" response.url then
      if w.stateParam response.url then
        oauth_callback_loop cfg w (malicious_state cfg.target_url)
          (oauth_callback_urls cfg) r.2
      else (none, r.2)
    else (none, r.2)

/-- The `test_oauth2_bypass` check (CVE-2023-46806).  Its first request is a
bare `self.session.get`, so a transport error there is a raised exception. -/
def test_oauth2_bypass (cfg : Config) (w : World) (st : St) :
    Except String (Option Finding) × St :=
  let r := send w st (getReq (oauth_url cfg))
  match r.1 with
  | Except.error e => (Except.error e, r.2)
  | Except.ok response =>
    if response.status_code ≠ 200 || !pyIn "OAuth 2" response.text then
      (Except.ok none, r.2)
    else
      match version_guard cfg with
      | some version =>
        if vulnerable_version version then
          (Except.ok (some (oauth_version_finding version)), r.2)
        else
          let e := oauth_exploit_attempt cfg w r.2
          (Except.ok e.1, e.2)
      | none =>
        let e := oauth_exploit_attempt cfg w r.2
        (Except.ok e.1, e.2)

/-- URL of the forgot-password page. -/
def reset_url (cfg : Config) : String := cfg.target_url ++ "/login/forgot_password.php"

/-- The fixed username list probed for enumeration via password reset. -/
def test_usernames : List String :=
  ["admin", "administrator", "root", "user", "student", "teacher"]

/-- Enumeration loop of the password-reset check (bare session posts: a
transport error raises). -/
def reset_enum_loop (cfg : Config) (w : World) (tok : String) :
    List String → St → Except String (Option Finding) × St
  | [], st => (Except.ok none, st)
  | username :: rest, st =>
    let st1 := sleepIf cfg st
    let r := send w st1 (postReq (reset_url cfg) [("username", username), ("logintoken", tok)])
    match r.1 with
    | Except.error e => (Except.error e, r.2)
    | Except.ok rr =>
      if pyIn "If the username and email address match" rr.text then
        reset_enum_loop cfg w tok rest r.2
      else if pyIn "We found too many users with this email address" rr.text then
        (Except.ok (some (reset_multi_finding username)), r.2)
      else if pyIn "No users have that username" rr.text then
        (Except.ok (some (reset_nouser_finding username)), r.2)
      else reset_enum_loop cfg w tok rest r.2

/-- The `test_password_reset_vulnerability` check. -/
def test_password_reset_vulnerability (cfg : Config) (w : World) (st : St) :
    Except String (Option Finding) × St :=
  let r := send w st (getReq (reset_url cfg))
  match r.1 with
  | Except.error e => (Except.error e, r.2)
  | Except.ok response =>
    if response.status_code ≠ 200 || !pyIn "Reset password" response.text then
      (Except.ok none, r.2)
    else
      let logintoken := (w.tokenOf response.text).getD ""
      match reset_enum_loop cfg w logintoken test_usernames r.2 with
      | (Except.error e, st2) => (Except.error e, st2)
      | (Except.ok (some f), st2) => (Except.ok (some f), st2)
      | (Except.ok none, st2) =>
        let st3 := sleepIf cfg st2
        let r2 := send w st3 ⟨"post", reset_url cfg,
          [("username", "admin"), ("logintoken", logintoken)], [],
          [("Host", "attacker.com"), ("X-Forwarded-Host", "attacker.com")]⟩
        match r2.1 with
        | Except.error e => (Except.error e, r2.2)
        | Except.ok rr =>
          if pyIn "attacker.com" rr.text then
            (Except.ok (some reset_host_finding), r2.2)
          else (Except.ok none, r2.2)

/-- The fixed header-override list of the Host-header bypass check. -/
def host_test_headers : List (List (String × String)) :=
  [[("Host", "localhost")],
   [("Host", "127.0.0.1")],
   [("X-Forwarded-Host", "localhost")],
   [("X-Forwarded-Host", "127.0.0.1")],
   [("X-Original-URL", "/admin/index.php")],
   [("X-Rewrite-URL", "/admin/index.php")]]

/-- Loop of the Host-header bypass check (bare session gets raise). -/
def host_loop (cfg : Config) (w : World) :
    List (List (String × String)) → St → Except String (Option Finding) × St
  | [], st => (Except.ok none, st)
  | headers :: rest, st =>
    let st1 := sleepIf cfg st
    let r := send w st1 ⟨"get", admin_url cfg, [], [], headers⟩
    match r.1 with
    | Except.error e => (Except.error e, r.2)
    | Except.ok rr =>
      if rr.status_code == 200 && pyIn "Site administration" rr.text then
        (Except.ok (some (host_header_finding headers)), r.2)
      else host_loop cfg w rest r.2

/-- The `test_host_header_auth_bypass` check. -/
def test_host_header_auth_bypass (cfg : Config) (w : World) (st : St) :
    Except String (Option Finding) × St :=
  host_loop cfg w host_test_headers st

/-- Form data of the empty-token CSRF probe. -/
def csrf_login_data : List (String × String) :=
  [("username", "admin"), ("password", "wrongpassword"), ("logintoken", "")]

/-- The `test_csrf_token_weaknesses` check (bare session requests raise). -/
def test_csrf_token_weaknesses (cfg : Config) (w : World) (st : St) :
    Except String (Option Finding) × St :=
  let r := send w st (getReq (login_url cfg))
  match r.1 with
  | Except.error e => (Except.error e, r.2)
  | Except.ok response =>
    if response.status_code ≠ 200 then (Except.ok none, r.2)
    else
      match w.tokenOf response.text with
      | none => (Except.ok (some csrf_missing_finding), r.2)
      | some token =>
        if token.length < 20 then
          (Except.ok (some (csrf_weak_finding token.length)), r.2)
        else
          let st2 := sleepIf cfg r.2
          let r2 := send w st2 (postReq (login_url cfg) csrf_login_data)
          match r2.1 with
          | Except.error e => (Except.error e, r2.2)
          | Except.ok etr =>
            if pyIn "username" etr.text && !pyIn "Invalid token" etr.text then
              (Except.ok (some csrf_bypass_finding), r2.2)
            else (Except.ok none, r2.2)

/-- The `test_session_fixation` check (bare session requests raise). -/
def test_session_fixation (cfg : Config) (w : World) (st : St) :
    Except String (Option Finding) × St :=
  let r := send w st (getReq (login_url cfg))
  match r.1 with
  | Except.error e => (Except.error e, r.2)
  | Except.ok response =>
    if response.status_code ≠ 200 then (Except.ok none, r.2)
    else
      match w.cookieMoodle (reqCount r.2.trace) with
      | none => (Except.ok none, r.2)
      | some pre_login_session =>
        if truthyOpt cfg.username && truthyOpt cfg.password then
          let logintoken := (w.tokenOf response.text).getD ""
          let st2 := sleepIf cfg r.2
          let r2 := send w st2 (postReq (login_url cfg)
            [("username", cfg.username.getD ""), ("password", cfg.password.getD ""),
             ("logintoken", logintoken)])
          match r2.1 with
          | Except.error e => (Except.error e, r2.2)
          | Except.ok login_response =>
            if pyIn "/my/" login_response.url || pyIn "Dashboard" login_response.text then
              if w.cookieMoodle (reqCount r2.2.trace) = some pre_login_session then
                (Except.ok (some (session_fixation_finding pre_login_session)), r2.2)
              else (Except.ok none, r2.2)
            else (Except.ok none, r2.2)
        else (Except.ok none, r.2)

/-- One step of the `run_tests` sequence: findings to append to
`results["vulnerabilities"]` and `results["info"]`, or a raised exception. -/
def Chk : Type := St → Except String (List Finding × List Finding) × St

/-- Step 1 of `run_tests`: authenticate with the provided credentials
(informational only); runs when both username and password are truthy. -/
def step_provided (cfg : Config) (hashFn : String → String) (w : World) : Chk :=
  fun st =>
    if truthyOpt cfg.username && truthyOpt cfg.password then
      let r := test_authentication cfg hashFn w st (cfg.username.getD "") (cfg.password.getD "")
      (Except.ok ([], if r.1 then [success_note (cfg.username.getD "")] else []), r.2)
    else (Except.ok ([], []), st)

/-- Step 2: common credentials, mapped to a Critical finding on a hit. -/
def step_common (cfg : Config) (hashFn : String → String) (w : World) : Chk :=
  fun st =>
    let r := test_common_credentials cfg hashFn w st
    (Except.ok ((match r.1 with
      | some c => [weak_credentials_finding c]
      | none => []), []), r.2)

/-- Step 3: OAuth2 bypass. -/
def step_oauth (cfg : Config) (w : World) : Chk :=
  fun st =>
    let r := test_oauth2_bypass cfg w st
    match r.1 with
    | Except.error e => (Except.error e, r.2)
    | Except.ok f => (Except.ok (f.toList, []), r.2)

/-- Step 4: SQL injection. -/
def step_sql (cfg : Config) (hashFn : String → String) (w : World) : Chk :=
  fun st =>
    let r := test_sql_injection_auth_bypass cfg hashFn w st
    (Except.ok (r.1.toList, []), r.2)

/-- Step 5: password reset. -/
def step_reset (cfg : Config) (w : World) : Chk :=
  fun st =>
    let r := test_password_reset_vulnerability cfg w st
    match r.1 with
    | Except.error e => (Except.error e, r.2)
    | Except.ok f => (Except.ok (f.toList, []), r.2)

/-- Step 6: Host header bypass. -/
def step_host (cfg : Config) (w : World) : Chk :=
  fun st =>
    let r := test_host_header_auth_bypass cfg w st
    match r.1 with
    | Except.error e => (Except.error e, r.2)
    | Except.ok f => (Except.ok (f.toList, []), r.2)

/-- Step 7: CSRF token weaknesses. -/
def step_csrf (cfg : Config) (w : World) : Chk :=
  fun st =>
    let r := test_csrf_token_weaknesses cfg w st
    match r.1 with
    | Except.error e => (Except.error e, r.2)
    | Except.ok f => (Except.ok (f.toList, []), r.2)

/-- Step 8: session fixation. -/
def step_sessfix (cfg : Config) (w : World) : Chk :=
  fun st =>
    let r := test_session_fixation cfg w st
    match r.1 with
    | Except.error e => (Except.error e, r.2)
    | Except.ok f => (Except.ok (f.toList, []), r.2)

/-- The fixed check sequence of `run_tests`, in source order. -/
def checks (cfg : Config) (hashFn : String → String) (w : World) : List Chk :=
  [step_provided cfg hashFn w, step_common cfg hashFn w, step_oauth cfg w,
   step_sql cfg hashFn w, step_reset cfg w, step_host cfg w, step_csrf cfg w,
   step_sessfix cfg w]

/-- Sequential execution of the checks inside the `try` block: accumulates
appended findings in order and stops at the first raised exception
(`some e`), keeping what was accumulated before it, exactly as the mutated
`results` dictionary does in Python. -/
def runSeq : List Chk → St → (List Finding × List Finding × Option String) × St
  | [], st => (([], [], none), st)
  | c :: rest, st =>
    match c st with
    | (Except.error e, st1) => (([], [], some e), st1)
    | (Except.ok (vs, is), st1) =>
      let r := runSeq rest st1
      ((vs ++ r.1.1, is ++ r.1.2.1, r.1.2.2), r.2)

/-- The whole `try` block of `run_tests`: runs the check sequence and, when
no exception was raised, appends the single "no vulnerabilities" info note
if the vulnerability list is empty.  Returns the results dictionary together
with the raised exception, if any. -/
def auth_try_block (cfg : Config) (hashFn : String → String) (w : World) (st : St) :
    (Report × Option String) × St :=
  let r := runSeq (checks cfg hashFn w) st
  match r.1.2.2 with
  | some e => ((⟨r.1.1, r.1.2.1⟩, some e), r.2)
  | none =>
    let info := if r.1.1 = [] then r.1.2.1 ++ [no_vuln_note] else r.1.2.1
    ((⟨r.1.1, info⟩, none), r.2)

/-- The `run_tests` entry point: the top-level `except Exception` converts a
raised exception into one informational note; a `Report` is always returned. -/
def run_tests (cfg : Config) (hashFn : String → String) (w : World) (st : St) :
    Report × St :=
  let r := auth_try_block cfg hashFn w st
  match r.1.2 with
  | some e => (⟨r.1.1.vulnerabilities, r.1.1.info ++ [error_note e]⟩, r.2)
  | none => (r.1.1, r.2)

/-! Helper lemmas about the state threading of the request primitives. -/

@[simp] theorem send_attempts (w : World) (st : St) (r : Req) :
    (send w st r).2.attempts = st.attempts := rfl

@[simp] theorem send_trace (w : World) (st : St) (r : Req) :
    (send w st r).2.trace = st.trace ++ [Event.request r] := rfl

@[simp] theorem sleepIf_attempts (cfg : Config) (st : St) :
    (sleepIf cfg st).attempts = st.attempts := by
  unfold sleepIf; split <;> rfl

@[simp] theorem safe_request_attempts (cfg : Config) (w : World) (st : St) (r : Req) :
    (safe_request cfg w st r).2.attempts = st.attempts := by
  cases h : (send w (sleepIf cfg st) r).1 <;> simp [safe_request, h]

@[simp] theorem safe_request_trace (cfg : Config) (w : World) (st : St) (r : Req) :
    (safe_request cfg w st r).2.trace = (sleepIf cfg st).trace ++ [Event.request r] := by
  cases h : (send w (sleepIf cfg st) r).1 <;> simp [safe_request, h]

/-- Requests whose form data never carries `p0` as the `password` field. -/
def goodTrace (p0 : String) (t : List Event) : Prop :=
  ∀ r : Req, Event.request r ∈ t → r.data.lookup "password" ≠ some p0

theorem goodTrace_nil (p0 : String) : goodTrace p0 [] := by
  intro r h; cases h

theorem goodTrace_append_sleep (p0 : String) (t : List Event) (h : goodTrace p0 t) :
    goodTrace p0 (t ++ [Event.sleep]) := by
  intro r hm
  rcases List.mem_append.mp hm with h1 | h2
  · exact h r h1
  · simp at h2

theorem goodTrace_append_req (p0 : String) (t : List Event) (rq : Req)
    (h : goodTrace p0 t) (hr : rq.data.lookup "password" ≠ some p0) :
    goodTrace p0 (t ++ [Event.request rq]) := by
  intro r hm
  rcases List.mem_append.mp hm with h1 | h2
  · exact h r h1
  · simp at h2; subst h2; exact hr

theorem goodTrace_sleepIf (p0 : String) (cfg : Config) (st : St)
    (h : goodTrace p0 st.trace) : goodTrace p0 (sleepIf cfg st).trace := by
  unfold sleepIf; split
  · exact goodTrace_append_sleep p0 st.trace h
  · exact h

theorem goodTrace_safe (p0 : String) (cfg : Config) (w : World) (st : St) (rq : Req)
    (h : goodTrace p0 st.trace) (hr : rq.data.lookup "password" ≠ some p0) :
    goodTrace p0 (safe_request cfg w st rq).2.trace := by
  rw [safe_request_trace]
  exact goodTrace_append_req p0 _ rq (goodTrace_sleepIf p0 cfg st h) hr

theorem lookup_password_post (url u p tok : String) :
    (postReq url [("username", u), ("password", p), ("logintoken", tok)]).data.lookup
      "password" = some p := rfl

theorem lookup_password_get (url : String) :
    (getReq url).data.lookup "password" = none := rfl

/-- The probe with the empty username returns false immediately, with the
state untouched (no attempt recorded, no sleep, no request). -/
theorem test_authentication_empty_username (cfg : Config) (hashFn : String → String)
    (w : World) (st : St) (p : String) :
    test_authentication cfg hashFn w st "" p = (false, st) := rfl

/-- Once the account has reached the attempt budget, the probe returns false
immediately, with the state untouched (no request sent). -/
theorem test_authentication_throttled (cfg : Config) (hashFn : String → String)
    (w : World) (st : St) (u p : String)
    (h : max_attempts_per_account ≤ st.attempts (hashFn u)) :
    test_authentication cfg hashFn w st u p = (false, st) := by
  by_cases hu : u = ""
  · subst hu; rfl
  · unfold test_authentication
    rw [if_neg hu, if_pos h]

/-- Effect of one `test_authentication` call on the attempt counters: apart
from the single increment guarded by the empty-username and budget checks,
no branch of the probe touches them. -/
theorem test_authentication_attempts (cfg : Config) (hashFn : String → String)
    (w : World) (st : St) (u p : String) :
    (test_authentication cfg hashFn w st u p).2.attempts =
      if u = "" then st.attempts
      else if max_attempts_per_account ≤ st.attempts (hashFn u) then st.attempts
      else bump st.attempts (hashFn u) := by
  unfold test_authentication
  split
  · simp_all
  · split
    · simp_all
    · simp only [if_neg (by assumption), if_neg (by assumption)]
      repeat' split
      all_goals simp

/-- A `test_authentication` call with password `p ≠ p0` never adds a request
carrying `p0` as form password to the trace. -/
theorem goodTrace_auth (p0 : String) (cfg : Config) (hashFn : String → String)
    (w : World) (st : St) (u p : String)
    (h : goodTrace p0 st.trace) (hp : p ≠ p0) :
    goodTrace p0 (test_authentication cfg hashFn w st u p).2.trace := by
  unfold test_authentication
  dsimp only
  repeat' split
  all_goals first
    | exact h
    | exact goodTrace_safe _ _ _ _ _ h (by rw [lookup_password_get]; simp)
    | exact goodTrace_safe _ _ _ _ _
        (goodTrace_sleepIf _ _ _
          (goodTrace_safe _ _ _ _ _ h (by rw [lookup_password_get]; simp)))
        (by rw [lookup_password_post]; simp [hp])
    | exact goodTrace_safe _ _ _ _ _
        (goodTrace_safe _ _ _ _ _
          (goodTrace_sleepIf _ _ _
            (goodTrace_safe _ _ _ _ _ h (by rw [lookup_password_get]; simp)))
          (by rw [lookup_password_post]; simp [hp]))
        (by rw [lookup_password_get]; simp)


/-- The fresh state of a newly constructed probe. -/
def st0 : St := ⟨fun _ => 0, []⟩

/-- The fourth entry of the credential list. -/
def cred_admin_moodle : Creds := ⟨"admin", "moodle", "product name as password"⟩

/-- The sixth entry of the credential list. -/
def cred_admin_changeme : Creds := ⟨"admin", "changeme", "temporary default password"⟩

/-- Nil case of the credential loop. -/
theorem common_loop_nil (cfg : Config) (hashFn : String → String) (w : World) (st : St) :
    common_credentials_loop cfg hashFn w [] st = (none, st) := rfl

/-- One unfolding step of the credential loop. -/
theorem common_loop_cons (cfg : Config) (hashFn : String → String) (w : World)
    (c : Creds) (rest : List Creds) (st : St) :
    common_credentials_loop cfg hashFn w (c :: rest) st =
      if (test_authentication cfg hashFn w (sleepIf cfg st) c.username c.password).1 then
        (some c, (test_authentication cfg hashFn w (sleepIf cfg st) c.username c.password).2)
      else common_credentials_loop cfg hashFn w rest
        (test_authentication cfg hashFn w (sleepIf cfg st) c.username c.password).2 := rfl

/-- C10: on a freshly constructed probe, for every configuration, hash
function and environment, the weak-credentials check can never return the
admin/moodle or admin/changeme tuples, and its final trace contains no login
request carrying "moodle" or "changeme" as the posted password: the first
three admin tuples exhaust the 3-attempt budget for the admin account, so
the later admin tuples return false from attemptLogin without sending any
request, and valid credentials in those positions are never detected. -/
theorem C10_later_admin_tuples_never_probed (cfg : Config) (hashFn : String → String) (w : World) :
    (test_common_credentials cfg hashFn w st0).1 ≠ some cred_admin_moodle ∧
    (test_common_credentials cfg hashFn w st0).1 ≠ some cred_admin_changeme ∧
    goodTrace "moodle" (test_common_credentials cfg hashFn w st0).2.trace ∧
    goodTrace "changeme" (test_common_credentials cfg hashFn w st0).2.trace := by
  have g0m : goodTrace "moodle" st0.trace := goodTrace_nil _
  have g0c : goodTrace "changeme" st0.trace := goodTrace_nil _
  rcases ht0 : test_authentication cfg hashFn w (sleepIf cfg st0) "admin" "admin" with ⟨b0, s1⟩
  have A1 : s1.attempts = bump st0.attempts (hashFn "admin") := by
    have h := test_authentication_attempts cfg hashFn w (sleepIf cfg st0) "admin" "admin"
    rw [ht0] at h
    simpa [st0] using h
  have v1 : s1.attempts (hashFn "admin") = 1 := by rw [A1]; simp [bump, st0]
  have g1m : goodTrace "moodle" s1.trace := by
    have h := goodTrace_auth "moodle" cfg hashFn w (sleepIf cfg st0) "admin" "admin"
      (goodTrace_sleepIf _ _ _ g0m) (by decide)
    rwa [ht0] at h
  have g1c : goodTrace "changeme" s1.trace := by
    have h := goodTrace_auth "changeme" cfg hashFn w (sleepIf cfg st0) "admin" "admin"
      (goodTrace_sleepIf _ _ _ g0c) (by decide)
    rwa [ht0] at h
  unfold test_common_credentials test_credentials
  rw [common_loop_cons]
  dsimp only
  rw [ht0]
  cases b0
  case true =>
    refine ⟨by simp [cred_admin_moodle], by simp [cred_admin_changeme], g1m, g1c⟩
  case false =>
    rw [if_neg Bool.false_ne_true]
    rcases ht1 : test_authentication cfg hashFn w (sleepIf cfg s1) "admin" "password" with ⟨b1, s2⟩
    have A2 : s2.attempts = bump s1.attempts (hashFn "admin") := by
      have h := test_authentication_attempts cfg hashFn w (sleepIf cfg s1) "admin" "password"
      rw [ht1] at h
      simpa [v1] using h
    have v2 : s2.attempts (hashFn "admin") = 2 := by rw [A2]; simp [bump, v1]
    have g2m : goodTrace "moodle" s2.trace := by
      have h := goodTrace_auth "moodle" cfg hashFn w (sleepIf cfg s1) "admin" "password"
        (goodTrace_sleepIf _ _ _ g1m) (by decide)
      rwa [ht1] at h
    have g2c : goodTrace "changeme" s2.trace := by
      have h := goodTrace_auth "changeme" cfg hashFn w (sleepIf cfg s1) "admin" "password"
        (goodTrace_sleepIf _ _ _ g1c) (by decide)
      rwa [ht1] at h
    rw [common_loop_cons]
    dsimp only
    rw [ht1]
    cases b1
    case true =>
      refine ⟨by simp [cred_admin_moodle], by simp [cred_admin_changeme], g2m, g2c⟩
    case false =>
      rw [if_neg Bool.false_ne_true]
      rcases ht2 : test_authentication cfg hashFn w (sleepIf cfg s2) "admin" "Password123" with ⟨b2, s3⟩
      have A3 : s3.attempts = bump s2.attempts (hashFn "admin") := by
        have h := test_authentication_attempts cfg hashFn w (sleepIf cfg s2) "admin" "Password123"
        rw [ht2] at h
        simpa [v2] using h
      have v3 : s3.attempts (hashFn "admin") = 3 := by rw [A3]; simp [bump, v2]
      have g3m : goodTrace "moodle" s3.trace := by
        have h := goodTrace_auth "moodle" cfg hashFn w (sleepIf cfg s2) "admin" "Password123"
          (goodTrace_sleepIf _ _ _ g2m) (by decide)
        rwa [ht2] at h
      have g3c : goodTrace "changeme" s3.trace := by
        have h := goodTrace_auth "changeme" cfg hashFn w (sleepIf cfg s2) "admin" "Password123"
          (goodTrace_sleepIf _ _ _ g2c) (by decide)
        rwa [ht2] at h
      rw [common_loop_cons]
      dsimp only
      rw [ht2]
      cases b2
      case true =>
        refine ⟨by simp [cred_admin_moodle], by simp [cred_admin_changeme], g3m, g3c⟩
      case false =>
        rw [if_neg Bool.false_ne_true]
        have hthr3 : test_authentication cfg hashFn w (sleepIf cfg s3) "admin" "moodle" =
            (false, sleepIf cfg s3) :=
          test_authentication_throttled _ _ _ _ _ _
            (by simp [max_attempts_per_account, v3])
        rw [common_loop_cons]
        dsimp only
        rw [hthr3]
        dsimp only
        by_cases hg : hashFn "guest" = hashFn "admin"
        · have hthr4 : test_authentication cfg hashFn w (sleepIf cfg (sleepIf cfg s3)) "guest" "" =
              (false, sleepIf cfg (sleepIf cfg s3)) :=
            test_authentication_throttled _ _ _ _ _ _
              (by simp [max_attempts_per_account, hg, v3])
          rw [common_loop_cons]
          dsimp only
          rw [hthr4]
          dsimp only
          have hthr5 : test_authentication cfg hashFn w
              (sleepIf cfg (sleepIf cfg (sleepIf cfg s3))) "admin" "changeme" =
              (false, sleepIf cfg (sleepIf cfg (sleepIf cfg s3))) :=
            test_authentication_throttled _ _ _ _ _ _
              (by simp [max_attempts_per_account, v3])
          rw [common_loop_cons]
          dsimp only
          rw [hthr5]
          dsimp only
          rw [common_loop_nil]
          exact ⟨by simp, by simp,
            goodTrace_sleepIf _ _ _ (goodTrace_sleepIf _ _ _ (goodTrace_sleepIf _ _ _ g3m)),
            goodTrace_sleepIf _ _ _ (goodTrace_sleepIf _ _ _ (goodTrace_sleepIf _ _ _ g3c))⟩
        · have v3g : s3.attempts (hashFn "guest") = 0 := by
            rw [A3, A2, A1]; simp [bump, hg, st0]
          rcases ht4 : test_authentication cfg hashFn w (sleepIf cfg (sleepIf cfg s3)) "guest" ""
            with ⟨b4, s4⟩
          have A4 : s4.attempts = bump s3.attempts (hashFn "guest") := by
            have h := test_authentication_attempts cfg hashFn w (sleepIf cfg (sleepIf cfg s3)) "guest" ""
            rw [ht4] at h
            simpa [v3g] using h
          have hg' : ¬ hashFn "admin" = hashFn "guest" := fun hh => hg hh.symm
          have v4 : s4.attempts (hashFn "admin") = 3 := by
            rw [A4]; simp [bump, hg', v3]
          have g4m : goodTrace "moodle" s4.trace := by
            have h := goodTrace_auth "moodle" cfg hashFn w (sleepIf cfg (sleepIf cfg s3)) "guest" ""
              (goodTrace_sleepIf _ _ _ (goodTrace_sleepIf _ _ _ g3m)) (by decide)
            rwa [ht4] at h
          have g4c : goodTrace "changeme" s4.trace := by
            have h := goodTrace_auth "changeme" cfg hashFn w (sleepIf cfg (sleepIf cfg s3)) "guest" ""
              (goodTrace_sleepIf _ _ _ (goodTrace_sleepIf _ _ _ g3c)) (by decide)
            rwa [ht4] at h
          rw [common_loop_cons]
          dsimp only
          rw [ht4]
          cases b4 with
          | true =>
            exact ⟨by simp [cred_admin_moodle], by simp [cred_admin_changeme], g4m, g4c⟩
          | false =>
            dsimp only
            have hthr5 : test_authentication cfg hashFn w (sleepIf cfg s4) "admin" "changeme" =
                (false, sleepIf cfg s4) :=
              test_authentication_throttled _ _ _ _ _ _
                (by simp [max_attempts_per_account, v4])
            rw [common_loop_cons]
            dsimp only
            rw [hthr5]
            dsimp only
            rw [common_loop_nil]
            exact ⟨by simp, by simp, goodTrace_sleepIf _ _ _ g4m, goodTrace_sleepIf _ _ _ g4c⟩

/-- Identity hash, a concrete deterministic stand-in for the md5 hexdigest
used when evaluating the model on closed inputs (only determinism of the
account key matters to the control flow). -/
def idHash : String → String := fun u => u

/-- A world in which every request raises a transport error. -/
def failWorld : World :=
  ⟨fun _ _ => Except.error "connection error", fun _ => none, fun _ => none, fun _ => false⟩

/-- A minimal configuration: no provided credentials, no delay, no version. -/
def cfgBase : Config := ⟨"http://target", none, none, 30, true, 0, none⟩

/-- A state in which the `admin` account has already used its 3 attempts. -/
def stAdmin3 : St := ⟨fun k => if k = "admin" then 3 else 0, []⟩

/-- C4: for every probe instance and every username, once 3 attempts have
been recorded for that account identifier (the hash of the username), any
further `test_authentication` call for that account returns false with the
state unchanged — so no sleep and no HTTP request happens — regardless of
the password; and a call with the empty username likewise returns false
with the state unchanged, sending no request. -/
theorem C4_attempt_budget_and_empty_username (cfg : Config) (hashFn : String → String)
    (w : World) (st : St) (u p : String) :
    (max_attempts_per_account ≤ st.attempts (hashFn u) →
      test_authentication cfg hashFn w st u p = (false, st)) ∧
    test_authentication cfg hashFn w st "" p = (false, st) :=
  ⟨fun h => test_authentication_throttled cfg hashFn w st u p h,
   test_authentication_empty_username cfg hashFn w st p⟩

/-- Witness for C4 at a concrete instance: the `admin` account has 3 recorded
attempts, so a 4th call returns false untouched, as does an empty-username
call. -/
theorem C4_attempt_budget_and_empty_username_witness :
    max_attempts_per_account ≤ stAdmin3.attempts (idHash "admin") ∧
    test_authentication cfgBase idHash failWorld stAdmin3 "admin" "whatever" =
      (false, stAdmin3) ∧
    test_authentication cfgBase idHash failWorld stAdmin3 "" "pw" = (false, stAdmin3) :=
  ⟨by decide,
   (C4_attempt_budget_and_empty_username cfgBase idHash failWorld stAdmin3 "admin" "whatever").1
     (by decide),
   (C4_attempt_budget_and_empty_username cfgBase idHash failWorld stAdmin3 "admin" "pw").2⟩

/-- C5: when the OAuth2 endpoint is reachable (status 200, body containing
"OAuth 2") and an externally supplied version string satisfies the
vulnerable-range rule (`vulnerable_version`: prefix "4.2" and
lexicographically below "4.2.2", or "4.1" below "4.1.5", or "4.0" below
"4.0.11"), the check returns the Critical CVE-2023-46806 finding
immediately: the final trace extends the initial one by that single GET, so
no callback (exploitation) request is ever attempted. -/
theorem C5_oauth_version_short_circuit (cfg : Config) (w : World) (st : St)
    (v : String) (r : Response)
    (hv : cfg.version_info = some (some v)) (hv0 : v ≠ "")
    (hr : w.http (reqCount st.trace) (getReq (oauth_url cfg)) = Except.ok r)
    (h200 : r.status_code = 200) (hbody : pyIn "OAuth 2" r.text = true)
    (hvuln : vulnerable_version v = true) :
    test_oauth2_bypass cfg w st =
      (Except.ok (some (oauth_version_finding v)),
        { st with trace := st.trace ++ [Event.request (getReq (oauth_url cfg))] }) ∧
    (oauth_version_finding v).cve = some "CVE-2023-46806" ∧
    (oauth_version_finding v).severity = "Critical" := by
  refine ⟨?_, rfl, rfl⟩
  unfold test_oauth2_bypass send
  dsimp only
  rw [hr]
  simp [version_guard, hv, hv0, h200, hbody, hvuln]

/-- Configuration for the C5 witness: external version "4.1.3". -/
def cfg5 : Config := ⟨"http://target", none, none, 30, true, 0, some (some "4.1.3")⟩

/-- World for the C5 witness: the OAuth2 endpoint answers 200 with an
"OAuth 2" body; everything else is a 404. -/
def world5 : World :=
  ⟨fun _ rq => if rq = getReq (oauth_url cfg5) then
      Except.ok ⟨200, "OAuth 2 login", oauth_url cfg5⟩
    else Except.ok ⟨404, "", ""⟩,
   fun _ => none, fun _ => none, fun _ => false⟩

/-- Witness for C5: version "4.1.3" is in the vulnerable range and the check
returns the Critical finding after exactly one request. -/
theorem C5_oauth_version_short_circuit_witness :
    vulnerable_version "4.1.3" = true ∧
    test_oauth2_bypass cfg5 world5 st0 =
      (Except.ok (some (oauth_version_finding "4.1.3")),
        { st0 with trace := [Event.request (getReq (oauth_url cfg5))] }) :=
  ⟨by decide,
   (C5_oauth_version_short_circuit cfg5 world5 st0 "4.1.3"
      ⟨200, "OAuth 2 login", oauth_url cfg5⟩ rfl (by decide) rfl rfl (by decide)
      (by decide)).1⟩


/-- C7: in the CSRF check, once the login page came back with status 200,
the three finding-producing conditions are evaluated in order — token field
absent (High "missing CSRF protection"), token shorter than 20 characters
(Medium "weak CSRF token" citing the length), empty-token login processed
(body contains "username") without "Invalid token" (High "CSRF protection
bypass") — and only the first applicable one produces a finding; if none
applies, no finding.  They are mutually exclusive: on the first two paths
the final trace shows the empty-token probe is not even sent. -/
theorem C7_csrf_conditions_order (cfg : Config) (w : World) (st : St) (r : Response)
    (hr : w.http (reqCount st.trace) (getReq (login_url cfg)) = Except.ok r)
    (h200 : r.status_code = 200) :
    (w.tokenOf r.text = none →
      test_csrf_token_weaknesses cfg w st =
        (Except.ok (some csrf_missing_finding), (send w st (getReq (login_url cfg))).2)) ∧
    (∀ t, w.tokenOf r.text = some t → t.length < 20 →
      test_csrf_token_weaknesses cfg w st =
        (Except.ok (some (csrf_weak_finding t.length)), (send w st (getReq (login_url cfg))).2)) ∧
    (∀ t r2, w.tokenOf r.text = some t → ¬ t.length < 20 →
      w.http (reqCount (sleepIf cfg (send w st (getReq (login_url cfg))).2).trace)
        (postReq (login_url cfg) csrf_login_data) = Except.ok r2 →
      ((pyIn "username" r2.text && !pyIn "Invalid token" r2.text) = true →
        test_csrf_token_weaknesses cfg w st =
          (Except.ok (some csrf_bypass_finding),
            (send w (sleepIf cfg (send w st (getReq (login_url cfg))).2)
              (postReq (login_url cfg) csrf_login_data)).2)) ∧
      ((pyIn "username" r2.text && !pyIn "Invalid token" r2.text) = false →
        test_csrf_token_weaknesses cfg w st =
          (Except.ok none,
            (send w (sleepIf cfg (send w st (getReq (login_url cfg))).2)
              (postReq (login_url cfg) csrf_login_data)).2))) := by
  refine ⟨?_, ?_, ?_⟩
  · intro htok
    unfold test_csrf_token_weaknesses send
    dsimp only
    rw [hr]
    simp [h200, htok]
  · intro t htok hlen
    unfold test_csrf_token_weaknesses send
    dsimp only
    rw [hr]
    simp [h200, htok, hlen]
  · intro t r2 htok hlen hr2
    simp only [send] at hr2
    constructor <;> intro hcond <;>
      (unfold test_csrf_token_weaknesses send
       dsimp only
       rw [hr]
       simp [h200, htok, hlen, hr2, hcond])


/-- World for the C7 witness: login page always 200, token of length 10. -/
def world7 : World :=
  ⟨fun _ _ => Except.ok ⟨200, "login page", "http://target/login/index.php"⟩,
   fun _ => some "0123456789", fun _ => none, fun _ => false⟩

/-- Witness for C7: a 10-character token yields the Medium weak-token
finding, with no second request in the trace. -/
theorem C7_csrf_conditions_order_witness :
    test_csrf_token_weaknesses cfgBase world7 st0 =
      (Except.ok (some (csrf_weak_finding 10)),
        (send world7 st0 (getReq (login_url cfgBase))).2) :=
  ((C7_csrf_conditions_order cfgBase world7 st0
      ⟨200, "login page", "http://target/login/index.php"⟩ rfl rfl).2.1)
    "0123456789" rfl (by decide)


/-- C8: in the session-fixation check, with a pre-login session cookie
recorded and a login judged successful (final URL contains "/my/" or body
contains "Dashboard"), an unchanged cookie value yields the High
"session fixation" finding evidencing that value, and a changed (or absent)
post-login value yields no finding. -/
theorem C8_session_fixation_cookie_comparison (cfg : Config) (w : World) (st : St) (r : Response) (pre : String)
    (r2 : Response) (lp : Req)
    (hr : w.http (reqCount st.trace) (getReq (login_url cfg)) = Except.ok r)
    (h200 : r.status_code = 200)
    (hcookie : w.cookieMoodle (reqCount (send w st (getReq (login_url cfg))).2.trace) = some pre)
    (hu : truthyOpt cfg.username = true) (hp : truthyOpt cfg.password = true)
    (hlp : lp = postReq (login_url cfg)
      [("username", cfg.username.getD ""), ("password", cfg.password.getD ""),
       ("logintoken", (w.tokenOf r.text).getD "")])
    (hr2 : w.http (reqCount (sleepIf cfg (send w st (getReq (login_url cfg))).2).trace) lp =
      Except.ok r2)
    (hsucc : (pyIn "/my/" r2.url || pyIn "Dashboard" r2.text) = true) :
    (w.cookieMoodle
        (reqCount (send w (sleepIf cfg (send w st (getReq (login_url cfg))).2) lp).2.trace) =
          some pre →
      test_session_fixation cfg w st =
        (Except.ok (some (session_fixation_finding pre)),
          (send w (sleepIf cfg (send w st (getReq (login_url cfg))).2) lp).2)) ∧
    (¬ w.cookieMoodle
        (reqCount (send w (sleepIf cfg (send w st (getReq (login_url cfg))).2) lp).2.trace) =
          some pre →
      test_session_fixation cfg w st =
        (Except.ok none,
          (send w (sleepIf cfg (send w st (getReq (login_url cfg))).2) lp).2)) := by
  subst hlp
  simp only [send] at hcookie hr2
  constructor <;> intro hpost <;> simp only [send] at hpost <;>
    (unfold test_session_fixation send
     dsimp only
     rw [hr]
     simp [h200, hcookie, hu, hp, hr2, hsucc, hpost])


/-- Configuration for the C8 witness: provided credentials. -/
def cfg8 : Config := ⟨"http://target", some "user1", some "secret", 30, true, 0, none⟩

/-- World for the C8 witness: the login page answers 200, the login post
lands on the dashboard, and the `MoodleSession` cookie stays "abc123". -/
def world8 : World :=
  ⟨fun _ rq => if rq.method = "post" then Except.ok ⟨200, "Dashboard", "http://target/my/"⟩
    else Except.ok ⟨200, "login page", "http://target/login/index.php"⟩,
   fun _ => none, fun _ => some "abc123", fun _ => false⟩

/-- Witness for C8: pre-login cookie "abc123" equal to the post-login cookie
with a successful login produces the High finding. -/
theorem C8_session_fixation_cookie_comparison_witness :
    test_session_fixation cfg8 world8 st0 =
      (Except.ok (some (session_fixation_finding "abc123")),
        (send world8 (sleepIf cfg8 (send world8 st0 (getReq (login_url cfg8))).2)
          (postReq (login_url cfg8)
            [("username", "user1"), ("password", "secret"), ("logintoken", "")])).2) :=
  ((C8_session_fixation_cookie_comparison cfg8 world8 st0
      ⟨200, "login page", "http://target/login/index.php"⟩ "abc123"
      ⟨200, "Dashboard", "http://target/my/"⟩ _ rfl rfl rfl (by decide) (by decide)
      rfl rfl (by decide)).1) rfl


/-- A family of worlds indexed by an acceptance oracle: the login page is
always reachable with no token, a login post succeeds (redirect to "/my/")
exactly when the oracle accepts the posted username/password pair, and every
other URL is a 404. -/
def accWorld (acc : String → String → Bool) : World :=
  ⟨fun _ rq =>
      if rq.method = "get" && rq.url = login_url cfgBase then
        Except.ok ⟨200, "login page", login_url cfgBase⟩
      else if rq.method = "post" && rq.url = login_url cfgBase then
        (if acc ((rq.data.lookup "username").getD "") ((rq.data.lookup "password").getD "") then
          Except.ok ⟨200, "welcome", "http://target/my/"⟩
        else Except.ok ⟨200, "loginerrors", login_url cfgBase⟩)
      else Except.ok ⟨404, "", ""⟩,
   fun _ => none, fun _ => none, fun _ => false⟩

/-- With no configured delay, the sleep guard is the identity. -/
theorem sleepIf_cfgBase (s : St) : sleepIf cfgBase s = s := by
  unfold sleepIf
  rw [if_neg (by decide)]

/-- In an `accWorld`, a non-throttled, non-empty-username probe returns
exactly the verdict of the oracle and bumps the account counter. -/
theorem accWorld_auth (acc : String → String → Bool) (hashFn : String → String)
    (st : St) (u p : String) (hu : ¬ u = "")
    (hb : ¬ max_attempts_per_account ≤ st.attempts (hashFn u)) :
    (test_authentication cfgBase hashFn (accWorld acc) st u p).1 = acc u p ∧
    (test_authentication cfgBase hashFn (accWorld acc) st u p).2.attempts =
      bump st.attempts (hashFn u) := by
  constructor
  · cases hacc : acc u p <;>
      (unfold test_authentication
       rw [if_neg hu, if_neg hb]
       dsimp only
       simp [safe_request, send, accWorld, getReq, postReq, login_url, cfgBase,
         sleepIf_cfgBase, List.lookup, hacc, respTruthy]
       rfl)
  · have h := test_authentication_attempts cfgBase hashFn (accWorld acc) st u p
    rw [h, if_neg hu, if_neg hb]


/-- C6 (amended): over an arbitrary acceptance oracle (a world where the
login page is reachable and a login post succeeds exactly when the oracle
accepts the credential pair), the weak-credentials check on a fresh probe
returns the first tuple, in the fixed list order, that is both accepted by
the oracle AND still within the 3-attempts-per-account budget: i.e. the
first accepted tuple among admin/admin, admin/password, admin/Password123
and guest/"" — the admin/moodle and admin/changeme positions are throttled
and can never be returned even when the environment accepts them. -/
theorem C6_amended_first_accepted_within_budget (acc : String → String → Bool) :
    (test_common_credentials cfgBase idHash (accWorld acc) st0).1 =
      ([(⟨"admin", "admin", "default admin credentials"⟩ : Creds),
        ⟨"admin", "password", "simple admin password"⟩,
        ⟨"admin", "Password123", "common admin password"⟩,
        ⟨"guest", "", "empty guest password"⟩].find?
        fun c => acc c.username c.password) := by
  rcases hta0 : test_authentication cfgBase idHash (accWorld acc) st0 "admin" "admin"
    with ⟨b0, s1⟩
  have h0 := accWorld_auth acc idHash st0 "admin" "admin" (by decide) (by decide)
  rw [hta0] at h0
  have hb0 : b0 = acc "admin" "admin" := h0.1
  have hA1 : s1.attempts = bump st0.attempts "admin" := h0.2
  have v1 : s1.attempts "admin" = 1 := by rw [hA1]; simp [bump, st0]
  unfold test_common_credentials test_credentials
  rw [common_loop_cons]
  dsimp only
  rw [sleepIf_cfgBase, hta0]
  dsimp only
  rw [hb0]
  cases hacc0 : acc "admin" "admin"
  case true =>
    simp [List.find?, hacc0]
  case false =>
    rw [if_neg Bool.false_ne_true]
    rcases hta1 : test_authentication cfgBase idHash (accWorld acc) s1 "admin" "password"
      with ⟨b1, s2⟩
    have h1 := accWorld_auth acc idHash s1 "admin" "password" (by decide)
      (by simp [idHash, max_attempts_per_account, v1])
    rw [hta1] at h1
    have hb1 : b1 = acc "admin" "password" := h1.1
    have hA2 : s2.attempts = bump s1.attempts "admin" := h1.2
    have v2 : s2.attempts "admin" = 2 := by rw [hA2]; simp [bump, v1]
    rw [common_loop_cons]
    dsimp only
    rw [sleepIf_cfgBase, hta1]
    dsimp only
    rw [hb1]
    cases hacc1 : acc "admin" "password"
    case true =>
      simp [List.find?, hacc0, hacc1]
    case false =>
      rw [if_neg Bool.false_ne_true]
      rcases hta2 : test_authentication cfgBase idHash (accWorld acc) s2 "admin" "Password123"
        with ⟨b2, s3⟩
      have h2 := accWorld_auth acc idHash s2 "admin" "Password123" (by decide)
        (by simp [idHash, max_attempts_per_account, v2])
      rw [hta2] at h2
      have hb2 : b2 = acc "admin" "Password123" := h2.1
      have hA3 : s3.attempts = bump s2.attempts "admin" := h2.2
      have v3 : s3.attempts "admin" = 3 := by rw [hA3]; simp [bump, v2]
      have v3g : s3.attempts "guest" = 0 := by rw [hA3, hA2, hA1]; simp [bump, st0]
      rw [common_loop_cons]
      dsimp only
      rw [sleepIf_cfgBase, hta2]
      dsimp only
      rw [hb2]
      cases hacc2 : acc "admin" "Password123"
      case true =>
        simp [List.find?, hacc0, hacc1, hacc2]
      case false =>
        rw [if_neg Bool.false_ne_true]
        have hthr3 : test_authentication cfgBase idHash (accWorld acc) s3 "admin" "moodle" =
            (false, s3) :=
          test_authentication_throttled _ _ _ _ _ _
            (by simp [idHash, max_attempts_per_account, v3])
        rw [common_loop_cons]
        dsimp only
        rw [sleepIf_cfgBase, hthr3]
        dsimp only
        rcases hta4 : test_authentication cfgBase idHash (accWorld acc) s3 "guest" ""
          with ⟨b4, s4⟩
        have h4 := accWorld_auth acc idHash s3 "guest" "" (by decide)
          (by simp [idHash, max_attempts_per_account, v3g])
        rw [hta4] at h4
        have hb4 : b4 = acc "guest" "" := h4.1
        have hA4 : s4.attempts = bump s3.attempts "guest" := h4.2
        have v4 : s4.attempts "admin" = 3 := by rw [hA4]; simp [bump, v3]
        rw [common_loop_cons]
        dsimp only
        rw [sleepIf_cfgBase, hta4]
        dsimp only
        rw [hb4]
        cases hacc4 : acc "guest" ""
        case true =>
          simp [List.find?, hacc0, hacc1, hacc2, hacc4]
        case false =>
          rw [if_neg Bool.false_ne_true]
          have hthr5 : test_authentication cfgBase idHash (accWorld acc) s4 "admin" "changeme" =
              (false, s4) :=
            test_authentication_throttled _ _ _ _ _ _
              (by simp [idHash, max_attempts_per_account, v4])
          rw [common_loop_cons]
          dsimp only
          rw [sleepIf_cfgBase, hthr5]
          dsimp only
          rw [common_loop_nil]
          simp [List.find?, hacc0, hacc1, hacc2, hacc4]


/-- Acceptance oracle that accepts exactly admin/moodle. -/
def accMoodleOnly : String → String → Bool := fun u p => u = "admin" && p = "moodle"

/-- Counterexample to C6 as stated: in the environment that accepts exactly
the admin/moodle tuple (a tuple of the fixed list which, alone, would
authenticate successfully — second conjunct), the check returns `none`
rather than that tuple (first conjunct), because the three earlier admin
tuples exhaust the attempt budget of the account. -/
theorem C6_counterexample_admin_moodle_only :
    (test_common_credentials cfgBase idHash (accWorld accMoodleOnly) st0).1 = none ∧
    (test_authentication cfgBase idHash (accWorld accMoodleOnly) st0 "admin" "moodle").1 = true :=
  ⟨rfl, rfl⟩


/-- C2 (amended): a transport failure during a request made through the
`_safe_request` wrapper is non-fatal and surfaced to the calling check as an
absent response (`none`). -/
theorem C2_amended_safe_request_absorbs_transport_errors (cfg : Config) (w : World)
    (st : St) (r : Req) (e : String)
    (h : w.http (reqCount (sleepIf cfg st).trace) r = Except.error e) :
    (safe_request cfg w st r).1 = none := by
  unfold safe_request send
  dsimp only
  rw [h]

/-- Witness for the amended C2: in the world where every request fails, a
`_safe_request` yields an absent response instead of raising. -/
theorem C2_amended_safe_request_absorbs_transport_errors_witness :
    (safe_request cfgBase failWorld st0 (getReq "http://target/x")).1 = none :=
  C2_amended_safe_request_absorbs_transport_errors cfgBase failWorld st0
    (getReq "http://target/x") "connection error" rfl

/-- World in which the OAuth2 endpoint times out, the login page is fine and
everything else is a 404. -/
def worldE : World :=
  ⟨fun _ rq =>
     if rq.url = oauth_url cfgBase then Except.error "timeout"
     else if rq.url = login_url cfgBase then Except.ok ⟨200, "page", login_url cfgBase⟩
     else Except.ok ⟨404, "", ""⟩,
   fun _ => none, fun _ => none, fun _ => false⟩

/-- Counterexample to C2 as stated: the first request of the OAuth2 check is a
bare session GET, so its transport failure raises out of the check instead
of being surfaced as an absent response (first conjunct); the whole run is
aborted by the top-level handler with only the error note (second conjunct),
even though the CSRF check — which never got to run — would have contributed
a High "missing CSRF protection" finding (third conjunct). -/
theorem C2_counterexample_oauth_timeout_aborts_run :
    (test_oauth2_bypass cfgBase worldE st0).1 = Except.error "timeout" ∧
    (run_tests cfgBase idHash worldE st0).1 = ⟨[], [error_note "timeout"]⟩ ∧
    (test_csrf_token_weaknesses cfgBase worldE st0).1 =
      Except.ok (some csrf_missing_finding) :=
  ⟨rfl, rfl, rfl⟩


/-- World that answers every request with a 404. -/
def worldD : World :=
  ⟨fun _ _ => Except.ok ⟨404, "", ""⟩, fun _ => none, fun _ => none, fun _ => false⟩

/-- Configuration with a one-second inter-request delay. -/
def cfgD9 : Config := ⟨"http://target", none, none, 30, true, 1, none⟩

/-- Checks that every request event of a trace is immediately preceded by a
sleep event (`prev` is the event before the head, if any). -/
def sleeps_precede (prev : Option Event) : List Event → Bool
  | [] => true
  | e :: rest =>
    (match e with
     | Event.request _ => decide (prev = some Event.sleep)
     | Event.sleep => true) && sleeps_precede (some e) rest

/-- C9 (amended): with a positive configured delay, every request issued
through `_safe_request` is immediately preceded by a blocking sleep. -/
theorem C9_amended_sleep_before_safe_request (cfg : Config) (w : World) (st : St)
    (r : Req) (h : 0 < cfg.delay) :
    (safe_request cfg w st r).2.trace = st.trace ++ [Event.sleep, Event.request r] := by
  rw [safe_request_trace]
  unfold sleepIf
  rw [if_pos h]
  simp

/-- Witness for the amended C9 at a concrete delayed configuration. -/
theorem C9_amended_sleep_before_safe_request_witness :
    (safe_request cfgD9 worldD st0 (getReq "http://target/x")).2.trace =
      [Event.sleep, Event.request (getReq "http://target/x")] :=
  C9_amended_sleep_before_safe_request cfgD9 worldD st0 (getReq "http://target/x")
    (by decide)

/-- Counterexample to C9 as stated: with a positive delay configured, the
trace of the full run contains requests not preceded by a sleep (the checks that
issue bare session requests — OAuth2, password reset, CSRF, session
fixation — never sleep first). -/
theorem C9_counterexample_requests_without_sleep :
    0 < cfgD9.delay ∧
    sleeps_precede none (run_tests cfgD9 idHash worldD st0).2.trace = false :=
  ⟨by decide, by decide⟩


/-- C1: `run_tests` is total on the embedded semantics — for every
configuration, hash function, world (including worlds where every request
raises a transport error) and state it returns a `Report` value carrying the
two sequences — and whenever the check sequence raises an uncaught exception
`e`, the top-level handler returns the partial report with the single
informational `error_note e` appended. -/
theorem C1_run_tests_always_reports (cfg : Config) (hashFn : String → String)
    (w : World) (st : St) :
    (∃ rep st2, run_tests cfg hashFn w st = (rep, st2)) ∧
    (∀ e rep st2, auth_try_block cfg hashFn w st = ((rep, some e), st2) →
      run_tests cfg hashFn w st =
        (⟨rep.vulnerabilities, rep.info ++ [error_note e]⟩, st2)) := by
  refine ⟨⟨_, _, rfl⟩, ?_⟩
  intro e rep st2 h
  unfold run_tests
  rw [h]

/-- Witness for C1: in the world where every request raises a transport
error, the run still returns a report, holding exactly the error note made
from the raised message. -/
theorem C1_run_tests_always_reports_witness :
    (run_tests cfgBase idHash failWorld st0).1 =
      ⟨[], [error_note "connection error"]⟩ := by
  have h := (C1_run_tests_always_reports cfgBase idHash failWorld st0).2
    "connection error" ⟨[], []⟩ (auth_try_block cfgBase idHash failWorld st0).2 rfl
  rw [h]
  rfl


/-- A check whose successful outcomes only ever append info notes titled
"Successful Authentication" (the only info producer inside the try block). -/
def okInfoTitles (c : Chk) : Prop :=
  ∀ st vs is st2, c st = (Except.ok (vs, is), st2) →
    ∀ f ∈ is, f.title = "Successful Authentication"

theorem runSeq_infos (cs : List Chk) (st : St)
    (h : ∀ c ∈ cs, okInfoTitles c) :
    ∀ f ∈ (runSeq cs st).1.2.1, f.title = "Successful Authentication" := by
  induction cs generalizing st with
  | nil => intro f hf; simp [runSeq] at hf
  | cons c rest ih =>
    intro f hf
    rcases hc : c st with ⟨res, st1⟩
    cases res with
    | error e =>
      unfold runSeq at hf
      rw [hc] at hf
      simp at hf
    | ok pair =>
      rcases pair with ⟨vs, is⟩
      unfold runSeq at hf
      rw [hc] at hf
      dsimp at hf
      rw [List.mem_append] at hf
      rcases hf with h1 | h2
      · exact h c (List.mem_cons_self _ _) st vs is st1 hc f h1
      · exact ih st1 (fun c2 hc2 => h c2 (List.mem_cons_of_mem _ hc2)) f h2

theorem okInfo_step_provided (cfg : Config) (hashFn : String → String) (w : World) :
    okInfoTitles (step_provided cfg hashFn w) := by
  intro st vs is st2 h
  unfold step_provided at h
  split at h
  · dsimp only at h
    split at h <;>
      (injection h with h1 h2
       injection h1 with h1
       injection h1 with hvs his
       subst his
       simp [success_note])
  · injection h with h1 h2
    injection h1 with h1
    injection h1 with hvs his
    subst his
    simp

theorem okInfo_step_common (cfg : Config) (hashFn : String → String) (w : World) :
    okInfoTitles (step_common cfg hashFn w) := by
  intro st vs is st2 h
  unfold step_common at h
  injection h with h1 h2
  injection h1 with h1
  injection h1 with hvs his
  subst his
  simp

theorem okInfo_step_oauth (cfg : Config) (w : World) :
    okInfoTitles (step_oauth cfg w) := by
  intro st vs is st2 h
  unfold step_oauth at h
  dsimp only at h
  split at h
  · simp at h
  · injection h with h1 h2
    injection h1 with h1
    injection h1 with hvs his
    subst his
    simp

theorem okInfo_step_sql (cfg : Config) (hashFn : String → String) (w : World) :
    okInfoTitles (step_sql cfg hashFn w) := by
  intro st vs is st2 h
  unfold step_sql at h
  injection h with h1 h2
  injection h1 with h1
  injection h1 with hvs his
  subst his
  simp

theorem okInfo_step_reset (cfg : Config) (w : World) :
    okInfoTitles (step_reset cfg w) := by
  intro st vs is st2 h
  unfold step_reset at h
  dsimp only at h
  split at h
  · simp at h
  · injection h with h1 h2
    injection h1 with h1
    injection h1 with hvs his
    subst his
    simp

theorem okInfo_step_host (cfg : Config) (w : World) :
    okInfoTitles (step_host cfg w) := by
  intro st vs is st2 h
  unfold step_host at h
  dsimp only at h
  split at h
  · simp at h
  · injection h with h1 h2
    injection h1 with h1
    injection h1 with hvs his
    subst his
    simp

theorem okInfo_step_csrf (cfg : Config) (w : World) :
    okInfoTitles (step_csrf cfg w) := by
  intro st vs is st2 h
  unfold step_csrf at h
  dsimp only at h
  split at h
  · simp at h
  · injection h with h1 h2
    injection h1 with h1
    injection h1 with hvs his
    subst his
    simp

theorem okInfo_step_sessfix (cfg : Config) (w : World) :
    okInfoTitles (step_sessfix cfg w) := by
  intro st vs is st2 h
  unfold step_sessfix at h
  dsimp only at h
  split at h
  · simp at h
  · injection h with h1 h2
    injection h1 with h1
    injection h1 with hvs his
    subst his
    simp

/-- C3 (amended): when the run completes without an uncaught exception and
the vulnerability list is empty, the info list contains exactly one
"no vulnerabilities found" note. -/
theorem C3_amended_exactly_one_no_vuln_note (cfg : Config) (hashFn : String → String)
    (w : World) (st : St) (rep : Report) (st2 : St)
    (h : auth_try_block cfg hashFn w st = ((rep, none), st2))
    (hv : rep.vulnerabilities = []) :
    rep.info.countP (fun f => decide (f = no_vuln_note)) = 1 := by
  have hinfos := runSeq_infos (checks cfg hashFn w) st (by
    intro c hc
    simp only [checks, List.mem_cons, List.not_mem_nil, or_false] at hc
    rcases hc with rfl | rfl | rfl | rfl | rfl | rfl | rfl | rfl
    · exact okInfo_step_provided cfg hashFn w
    · exact okInfo_step_common cfg hashFn w
    · exact okInfo_step_oauth cfg w
    · exact okInfo_step_sql cfg hashFn w
    · exact okInfo_step_reset cfg w
    · exact okInfo_step_host cfg w
    · exact okInfo_step_csrf cfg w
    · exact okInfo_step_sessfix cfg w)
  unfold auth_try_block at h
  rcases hrs : runSeq (checks cfg hashFn w) st with ⟨⟨vs, is, exc⟩, st3⟩
  rw [hrs] at h hinfos
  cases exc with
  | some e => simp at h
  | none =>
    injection h with h1 h2
    injection h1 with hrep hexc
    subst hrep
    dsimp only at hv
    subst hv
    dsimp only
    rw [if_pos rfl, List.countP_append]
    have hzero : is.countP (fun f => decide (f = no_vuln_note)) = 0 := by
      rw [List.countP_eq_zero]
      intro f hf
      have ht := hinfos f hf
      simp only [decide_eq_true_eq]
      intro hfe
      rw [hfe] at ht
      simp [no_vuln_note] at ht
    rw [hzero]
    simp [no_vuln_note]


/-- Counterexample to C3 as stated: in the run aborted by the OAuth2
transport error, the returned report has an empty vulnerability list yet
contains zero (not exactly one) "no vulnerabilities found" notes — its only
info note is the error note. -/
theorem C3_counterexample_error_run_lacks_note :
    (run_tests cfgBase idHash worldE st0).1.vulnerabilities = [] ∧
    (run_tests cfgBase idHash worldE st0).1.info.countP
      (fun f => decide (f = no_vuln_note)) = 0 :=
  ⟨rfl, rfl⟩

/-- Witness for the amended C3: a clean all-404 run ends without exception,
with no vulnerabilities and exactly one no-vulnerabilities note. -/
theorem C3_amended_exactly_one_no_vuln_note_witness :
    (auth_try_block cfgBase idHash worldD st0).1 = (⟨[], [no_vuln_note]⟩, none) ∧
    (⟨[], [no_vuln_note]⟩ : Report).info.countP
      (fun f => decide (f = no_vuln_note)) = 1 :=
  ⟨rfl,
   C3_amended_exactly_one_no_vuln_note cfgBase idHash worldD st0 ⟨[], [no_vuln_note]⟩
     (auth_try_block cfgBase idHash worldD st0).2 rfl rfl⟩

end MoodleAuth
